import Mathlib

/-!
# GeneratedAssetSymbols.h

A verification development for the asset-symbol header of the Ignite target
(`DerivedSources/GeneratedAssetSymbols.h`).  The header has no functions: it is
a flat list of `static NSString * const` declarations, each preceded by a
`///` documentation comment.  The embedding keeps

* every constant as a Lean constant of the same name and the same value,
* the table of declarations in source order (comment text, identifier, value),
* the text of the header, line by line, so that the table can be checked
  against the text it was read from.
-/

namespace GeneratedAssetSymbols

/-! ## The constants, as the header declares them -/

/-- Line 10 of the header. -/
def ACImageNameIgniteCelebrating : String := "Ignite_Celebrating"

/-- Line 13 of the header. -/
def ACImageNameIgniteHeart : String := "Ignite_Heart"

/-- Line 16 of the header. -/
def ACImageNameIgniteLeyendo : String := "Ignite_Leyendo"

/-- Line 19 of the header. -/
def ACImageNameIgniteMeditation : String := "Ignite_Meditation"

/-- Line 22 of the header. -/
def ACImageNameIgniteNeutral : String := "Ignite_Neutral"

/-- Line 25 of the header. -/
def ACImageNameIgniteRunning : String := "Ignite_Running"

/-- Line 28 of the header. -/
def ACImageNameIgniteSad : String := "Ignite_Sad"

/-- Line 31 of the header. -/
def ACImageNameIgniteSleep : String := "Ignite_Sleep"

/-- Line 34 of the header. -/
def ACImageNameIgniteThinking : String := "Ignite_Thinking"

/-- Line 37 of the header. -/
def ACImageNameIgniteTrophy : String := "Ignite_Trophy"

/-- Line 40 of the header. -/
def ACImageNameIgniteWaving : String := "Ignite_Waving"

/-! ## The table of declarations -/

/-- One declaration of the header: the text of the `///` comment directly
above it, the declared identifier, and the string literal it is bound to. -/
structure ImageDecl where
  /-- Text of the documentation comment, after the leading `/// `. -/
  doc : String
  /-- The declared identifier. -/
  ident : String
  /-- The value of the `@"..."` literal. -/
  value : String
deriving DecidableEq, Repr

/-- The eleven declarations of the header, in source order (lines 9 to 40). -/
def declarations : List ImageDecl :=
  [ ⟨"The \"Ignite_Celebrating\" asset catalog image resource.",
      "ACImageNameIgniteCelebrating", ACImageNameIgniteCelebrating⟩,
    ⟨"The \"Ignite_Heart\" asset catalog image resource.",
      "ACImageNameIgniteHeart", ACImageNameIgniteHeart⟩,
    ⟨"The \"Ignite_Leyendo\" asset catalog image resource.",
      "ACImageNameIgniteLeyendo", ACImageNameIgniteLeyendo⟩,
    ⟨"The \"Ignite_Meditation\" asset catalog image resource.",
      "ACImageNameIgniteMeditation", ACImageNameIgniteMeditation⟩,
    ⟨"The \"Ignite_Neutral\" asset catalog image resource.",
      "ACImageNameIgniteNeutral", ACImageNameIgniteNeutral⟩,
    ⟨"The \"Ignite_Running\" asset catalog image resource.",
      "ACImageNameIgniteRunning", ACImageNameIgniteRunning⟩,
    ⟨"The \"Ignite_Sad\" asset catalog image resource.",
      "ACImageNameIgniteSad", ACImageNameIgniteSad⟩,
    ⟨"The \"Ignite_Sleep\" asset catalog image resource.",
      "ACImageNameIgniteSleep", ACImageNameIgniteSleep⟩,
    ⟨"The \"Ignite_Thinking\" asset catalog image resource.",
      "ACImageNameIgniteThinking", ACImageNameIgniteThinking⟩,
    ⟨"The \"Ignite_Trophy\" asset catalog image resource.",
      "ACImageNameIgniteTrophy", ACImageNameIgniteTrophy⟩,
    ⟨"The \"Ignite_Waving\" asset catalog image resource.",
      "ACImageNameIgniteWaving", ACImageNameIgniteWaving⟩ ]

/-- The declared identifiers, in source order. -/
def identifiers : List String := declarations.map ImageDecl.ident

/-- The declared string values (the asset names), in source order. -/
def values : List String := declarations.map ImageDecl.value

/-- What application code gets when it refers to a symbol by name: the value
of the first declaration with that identifier, if there is one. -/
def valueOf (name : String) : Option String :=
  (declarations.find? (fun d => d.ident == name)).map ImageDecl.value

/-! ## The text of the header -/

/-- The header, line by line (42 lines; the last one has no line break). -/
def header : List String :=
  [ "#import <Foundation/Foundation.h>",
    "",
    "#if __has_attribute(swift_private)",
    "#define AC_SWIFT_PRIVATE __attribute__((swift_private))",
    "#else",
    "#define AC_SWIFT_PRIVATE",
    "#endif",
    "",
    "/// The \"Ignite_Celebrating\" asset catalog image resource.",
    "static NSString * const ACImageNameIgniteCelebrating AC_SWIFT_PRIVATE = @\"Ignite_Celebrating\";",
    "",
    "/// The \"Ignite_Heart\" asset catalog image resource.",
    "static NSString * const ACImageNameIgniteHeart AC_SWIFT_PRIVATE = @\"Ignite_Heart\";",
    "",
    "/// The \"Ignite_Leyendo\" asset catalog image resource.",
    "static NSString * const ACImageNameIgniteLeyendo AC_SWIFT_PRIVATE = @\"Ignite_Leyendo\";",
    "",
    "/// The \"Ignite_Meditation\" asset catalog image resource.",
    "static NSString * const ACImageNameIgniteMeditation AC_SWIFT_PRIVATE = @\"Ignite_Meditation\";",
    "",
    "/// The \"Ignite_Neutral\" asset catalog image resource.",
    "static NSString * const ACImageNameIgniteNeutral AC_SWIFT_PRIVATE = @\"Ignite_Neutral\";",
    "",
    "/// The \"Ignite_Running\" asset catalog image resource.",
    "static NSString * const ACImageNameIgniteRunning AC_SWIFT_PRIVATE = @\"Ignite_Running\";",
    "",
    "/// The \"Ignite_Sad\" asset catalog image resource.",
    "static NSString * const ACImageNameIgniteSad AC_SWIFT_PRIVATE = @\"Ignite_Sad\";",
    "",
    "/// The \"Ignite_Sleep\" asset catalog image resource.",
    "static NSString * const ACImageNameIgniteSleep AC_SWIFT_PRIVATE = @\"Ignite_Sleep\";",
    "",
    "/// The \"Ignite_Thinking\" asset catalog image resource.",
    "static NSString * const ACImageNameIgniteThinking AC_SWIFT_PRIVATE = @\"Ignite_Thinking\";",
    "",
    "/// The \"Ignite_Trophy\" asset catalog image resource.",
    "static NSString * const ACImageNameIgniteTrophy AC_SWIFT_PRIVATE = @\"Ignite_Trophy\";",
    "",
    "/// The \"Ignite_Waving\" asset catalog image resource.",
    "static NSString * const ACImageNameIgniteWaving AC_SWIFT_PRIVATE = @\"Ignite_Waving\";",
    "",
    "#undef AC_SWIFT_PRIVATE" ]

/-- Lines 1 to 8: the import and the conditional definition of the
visibility attribute. -/
def preamble : List String := header.take 8

/-- Line 42: the attribute is undefined again. -/
def trailer : List String := header.drop 41

/-- The three lines one declaration occupies in the header: its comment, the
declaration itself, and the empty line after it. -/
def render (d : ImageDecl) : List String :=
  [ "/// " ++ d.doc,
    "static NSString * const " ++ d.ident ++ " AC_SWIFT_PRIVATE = @\"" ++ d.value ++ "\";",
    "" ]

/-- The opening of every declaration line. -/
def declLead : List Char := "static NSString * const ".data

/-- Whether a line of the header declares a constant. -/
def isDeclLine (line : String) : Bool := line.data.take declLead.length == declLead

/-! ## Notions the claims are stated with -/

/-- The double-quote character. -/
def dquote : Char := Char.ofNat 34

/-- The underscore character. -/
def underscore : Char := Char.ofNat 95

/-- The asset name a documentation comment quotes: the text between its first
two double quotes, if it has two. -/
def quotedName (doc : String) : Option String :=
  match doc.data.dropWhile (fun c => c != dquote) with
  | [] => none
  | _ :: rest =>
    let name := rest.takeWhile (fun c => c != dquote)
    if name.length < rest.length then some (String.mk name) else none

/-- The comment the generator writes above the constant for asset `name`. -/
def docFor (name : String) : String :=
  "The \"" ++ name ++ "\" asset catalog image resource."

/-- The identifier derived from an asset name: `ACImageName` followed by the
name with every underscore removed. -/
def deriveIdent (name : String) : String :=
  "ACImageName" ++ String.mk (name.data.filter (fun c => c != underscore))

/-- The part of an asset name after its first seven characters. -/
def suffixOf (name : String) : List Char := name.data.drop 7

/-! ## The table agrees with the text -/

/-- The header is its preamble, the rendering of the table, and the trailer:
the table holds what the text declares, in the same order. -/
theorem header_eq_render :
    header = preamble ++ (declarations.map render).flatten ++ trailer := by
  decide

/-- Whoever looks a name up and gets a value has named a declaration of the
table with that identifier and that value. -/
theorem valueOf_some_mem {name v : String} (h : valueOf name = some v) :
    ∃ d ∈ declarations, d.ident = name ∧ d.value = v := by
  unfold valueOf at h
  cases hf : declarations.find? (fun d => d.ident == name) with
  | none => rw [hf] at h; cases h
  | some d =>
    rw [hf] at h
    refine ⟨d, List.mem_of_find?_eq_some hf, ?_, ?_⟩
    · have hp := List.find?_some hf
      simpa using hp
    · simpa using h

/-- Two declarations of the table with the same value have the same
identifier. -/
theorem ident_eq_of_value_eq :
    ∀ d ∈ declarations, ∀ e ∈ declarations, d.value = e.value → d.ident = e.ident := by
  decide

/-! ## The claims -/

/-- Claim C1: the header declares exactly eleven image-name constants: the
table of declarations has length 11, and so has the list of the header's
declaration lines. -/
theorem declarations_length :
    declarations.length = 11 ∧ (header.filter isDeclLine).length = 11 := by
  decide

/-- Claim C2: the eleven string values (the asset names) are pairwise
different: the list of values has length 11 and no duplicates. -/
theorem values_nodup : values.length = 11 ∧ values.Nodup := by
  decide

/-- Claim C3: the eleven identifiers are pairwise distinct, so the table is a
function from identifier to value (looking an identifier of the table up gives
the value declared with it), and that function is one-to-one: two names that
look up to the same value are the same name. -/
theorem identifiers_nodup_valueOf_injective :
    identifiers.length = 11 ∧ identifiers.Nodup ∧
    (∀ d ∈ declarations, valueOf d.ident = some d.value) ∧
    (∀ a b v : String, valueOf a = some v → valueOf b = some v → a = b) := by
  refine ⟨by decide, by decide, by decide, ?_⟩
  intro a b v ha hb
  obtain ⟨d, hd, rfl, rfl⟩ := valueOf_some_mem ha
  obtain ⟨e, he, rfl, hv⟩ := valueOf_some_mem hb
  exact (ident_eq_of_value_eq e he d hd hv).symm

/-- Claim C5: the string value of a declared constant is the asset name quoted
in the documentation comment directly above it, and that comment is exactly
the text 'The "X" asset catalog image resource.' for the value X. -/
theorem doc_quotes_value (d : ImageDecl) (h : d ∈ declarations) :
    quotedName d.doc = some d.value ∧ d.doc = docFor d.value := by
  revert d
  decide

/-- The declaration of line 28 is in the table, and claim C5 holds of it. -/
theorem doc_quotes_value_witness :
    (⟨"The \"Ignite_Sad\" asset catalog image resource.", "ACImageNameIgniteSad",
        "Ignite_Sad"⟩ : ImageDecl) ∈ declarations ∧
    quotedName "The \"Ignite_Sad\" asset catalog image resource." = some "Ignite_Sad" ∧
    "The \"Ignite_Sad\" asset catalog image resource." = docFor "Ignite_Sad" :=
  ⟨by decide,
   doc_quotes_value
     ⟨"The \"Ignite_Sad\" asset catalog image resource.", "ACImageNameIgniteSad", "Ignite_Sad"⟩
     (by decide)⟩

/-- Claim C6: the two asset names the specification gives as examples are
declared: "Ignite_Celebrating" is the value of ACImageNameIgniteCelebrating
and "Ignite_Heart" is the value of ACImageNameIgniteHeart, and both are among
the declared values. -/
theorem example_values_declared :
    ACImageNameIgniteCelebrating = "Ignite_Celebrating" ∧
    ACImageNameIgniteHeart = "Ignite_Heart" ∧
    valueOf "ACImageNameIgniteCelebrating" = some "Ignite_Celebrating" ∧
    valueOf "ACImageNameIgniteHeart" = some "Ignite_Heart" ∧
    "Ignite_Celebrating" ∈ values ∧ "Ignite_Heart" ∈ values := by
  decide

/-- Claim C7: the identifier of a declared constant is derived from its string
value: it is "ACImageName" followed by the value with every underscore
removed. -/
theorem ident_derived_from_value (d : ImageDecl) (h : d ∈ declarations) :
    d.ident = deriveIdent d.value := by
  revert d
  decide

/-- The declaration of line 10 is in the table, and claim C7 holds of it:
"Ignite_Celebrating" gives ACImageNameIgniteCelebrating. -/
theorem ident_derived_from_value_witness :
    (⟨"The \"Ignite_Celebrating\" asset catalog image resource.",
        "ACImageNameIgniteCelebrating", "Ignite_Celebrating"⟩ : ImageDecl) ∈ declarations ∧
    "ACImageNameIgniteCelebrating" = deriveIdent "Ignite_Celebrating" :=
  ⟨by decide,
   ident_derived_from_value
     ⟨"The \"Ignite_Celebrating\" asset catalog image resource.",
       "ACImageNameIgniteCelebrating", "Ignite_Celebrating"⟩
     (by decide)⟩

/-- Claim C8: the constants are declared in strictly ascending lexicographic
(character-code) order of their string values: each value is less than the
one declared next, and so less than every value declared after it. -/
theorem values_strictly_ascending :
    List.Chain' (fun a b : String => a < b) values ∧
    List.Pairwise (fun a b : String => a < b) values := by
  have hp : List.Pairwise (fun a b : String => a < b) values := by
    simp only [String.lt_iff_toList_lt]
    decide
  exact ⟨hp.chain', hp⟩

/-- Claim C9: a declared string value is "Ignite_" followed by a non-empty
suffix of ASCII letters only; it contains exactly one underscore, no
whitespace, and no character that is neither a letter nor that underscore. -/
theorem value_shape (v : String) (h : v ∈ values) :
    v.data = "Ignite_".data ++ suffixOf v ∧
    suffixOf v ≠ [] ∧
    (suffixOf v).all Char.isAlpha = true ∧
    v.data.count underscore = 1 ∧
    (∀ c ∈ v.data, c.isWhitespace = false ∧ (c.isAlpha = true ∨ c = underscore)) := by
  revert v
  decide

/-- The value of line 37 is declared, and claim C9 holds of it. -/
theorem value_shape_witness :
    "Ignite_Trophy" ∈ values ∧
    "Ignite_Trophy".data = "Ignite_".data ++ suffixOf "Ignite_Trophy" ∧
    suffixOf "Ignite_Trophy" ≠ [] ∧
    (suffixOf "Ignite_Trophy").all Char.isAlpha = true ∧
    "Ignite_Trophy".data.count underscore = 1 ∧
    (∀ c ∈ "Ignite_Trophy".data,
      c.isWhitespace = false ∧ (c.isAlpha = true ∨ c = underscore)) :=
  ⟨by decide, value_shape "Ignite_Trophy" (by decide)⟩

end GeneratedAssetSymbols
